import Mathlib

/-!
Verification of the book-catalog browser's filter / pagination / selection
logic (the "Catalog View Controller").

Strings are modelled as `List Char`. JavaScript string and array operations
used by the source (`trim`, `toLowerCase`, `includes` on strings, `includes`
on arrays, `slice`, `find`) are given explicit executable models below.

The dataset (`books`, `authors`, `genres`) and page-size constant
(`BOOKS_PER_PAGE`) are imported by the source from `data.js`, which is not
part of the sources here; following the spec ("supplied as three static
mappings/sequences ... and one constant (page size), considered frozen for
the lifetime of the session") they are modelled as parameters of an
environment record.
-/

/-- A JavaScript-style string. -/
abbrev JStr := List Char

/-- Model of `String.prototype.trim`: remove whitespace from both ends. -/
def jsTrim (s : JStr) : JStr :=
  ((s.dropWhile Char.isWhitespace).reverse.dropWhile Char.isWhitespace).reverse

/-- Model of `String.prototype.toLowerCase`. -/
def lowerStr (s : JStr) : JStr := s.map Char.toLower

/-- `occursFrom needle hay`: `needle` occurs at the start of `hay`. -/
def occursFrom : JStr → JStr → Bool
  | [], _ => true
  | _ :: _, [] => false
  | c :: cs, d :: ds => c == d && occursFrom cs ds

/-- Model of `String.prototype.includes`: `needle` occurs somewhere in `hay`
as a contiguous substring. -/
def occursIn (needle : JStr) : JStr → Bool
  | [] => needle.isEmpty
  | d :: ds => occursFrom needle (d :: ds) || occursIn needle ds

/-- Model of `Array.prototype.slice(a, b)` (for `0 ≤ a ≤ b`). -/
def jsSlice (l : List α) (a b : Nat) : List α := (l.drop a).take (b - a)

/-- A record of the `books` array from `data.js`:
id, title, author (an author identifier), image URL, description,
genre identifier list, published date (kept abstract as an integer). -/
structure Book where
  id : JStr
  title : JStr
  author : JStr
  image : JStr
  description : JStr
  genres : List JStr
  published : Int
deriving DecidableEq, Repr

/-- The filter values extracted from the search form:
`Object.fromEntries(new FormData(event.target))` yields the `title`,
`author` and `genre` fields. -/
structure Query where
  title : JStr
  author : JStr
  genre : JStr
deriving DecidableEq, Repr

/-- The literal `'any'` used as the unconstrained dropdown value. -/
def anyS : JStr := ['a', 'n', 'y']

/-- `titleMatch` of the search-form submit handler:
`filters.title.trim() === '' || book.title.toLowerCase().includes(filters.title.toLowerCase())`. -/
def titleMatch (q : Query) (b : Book) : Bool :=
  jsTrim q.title == [] || occursIn (lowerStr q.title) (lowerStr b.title)

/-- `authorMatch` of the search-form submit handler:
`filters.author === 'any' || book.author === filters.author`. -/
def authorMatch (q : Query) (b : Book) : Bool :=
  q.author == anyS || b.author == q.author

/-- `genreMatch` of the search-form submit handler:
`filters.genre === 'any' || book.genres.includes(filters.genre)`. -/
def genreMatch (q : Query) (b : Book) : Bool :=
  q.genre == anyS || b.genres.contains q.genre

/-- The filter predicate of the submit handler: `titleMatch && authorMatch && genreMatch`. -/
def bookMatches (q : Query) (b : Book) : Bool :=
  titleMatch q b && authorMatch q b && genreMatch q b

/-- `books.filter(book => ...)` in the search-form submit handler. -/
def filterBooks (books : List Book) (q : Query) : List Book :=
  books.filter (fun b => bookMatches q b)

/-- The environment imported from `data.js`: the `books` array, the
`authors` mapping (identifier to display name) and `BOOKS_PER_PAGE`.
Modelled from the spec: `data.js` is not among the sources; per the spec
these are static, frozen for the session. -/
structure Env where
  books : List Book
  authors : List (JStr × JStr)
  pageSize : Nat
deriving DecidableEq, Repr

/-- The detail overlay (`data-list-active` and the fields the click handler
sets on it). Initially closed with empty fields. -/
structure DetailPanel where
  panelOpen : Bool
  blurSrc : JStr
  imageSrc : JStr
  titleText : JStr
  subtitleAuthor : Option JStr
  subtitleYear : Int
  descText : JStr
deriving DecidableEq, Repr

/-- The closed, empty detail panel the page starts with. -/
def initPanel : DetailPanel :=
  { panelOpen := false, blurSrc := [], imageSrc := [], titleText := [],
    subtitleAuthor := none, subtitleYear := 0, descText := [] }

/-- The detail panel after the click handler populates it from book `b`:
both image sources from `b.image`, the title, the subtitle from
`authors[b.author]` and `b.published`, and the description. -/
def panelFor (env : Env) (b : Book) : DetailPanel :=
  { panelOpen := true, blurSrc := b.image, imageSrc := b.image,
    titleText := b.title, subtitleAuthor := List.lookup b.author env.authors,
    subtitleYear := b.published, descText := b.description }

/-- The mutable state of the controller: the module-level `page` and
`matches` variables (the JS `matches` variable is `matchList`), the children of `[data-list-items]` (one per rendered
book), the `disabled` state of `[data-list-button]`, the visibility of
`[data-list-message]`, and the detail overlay. -/
structure AppState where
  page : Nat
  matchList : List Book
  rendered : List Book
  buttonDisabled : Bool
  messageShown : Bool
  panel : DetailPanel
deriving DecidableEq, Repr

/-- The state after the initialization lines run:
`page = 1`, `matches = [...books]`,
`displayBooks(matches.slice(0, BOOKS_PER_PAGE))`, and
`button.disabled = (matches.length - (page * BOOKS_PER_PAGE)) <= 0`. -/
def initState (env : Env) : AppState :=
  { page := 1,
    matchList := env.books,
    rendered := jsSlice env.books 0 env.pageSize,
    buttonDisabled := decide (((env.books.length : Int) - 1 * env.pageSize) ≤ 0),
    messageShown := false,
    panel := initPanel }

/-- The user events the claims quantify over: a search-form submission
carrying the extracted filters, a click on the show-more button, and a
click inside the list area carrying the event's propagation path (each
node abstracted to its `dataset.preview` attribute, `none` when absent). -/
inductive Event where
  | submit (q : Query)
  | more
  | select (path : List (Option JStr))
deriving DecidableEq, Repr

/-- `pathArray.find(node => node?.dataset?.preview)?.dataset?.preview`:
the first truthy `data-preview` value along the propagation path (a missing
attribute is `none`; the empty string is falsy and is skipped). -/
def extractPreview : List (Option JStr) → Option JStr
  | [] => none
  | none :: rest => extractPreview rest
  | some pid :: rest => if pid == [] then extractPreview rest else some pid

/-- One event handler execution, as written in the source:

* submit: filter `books`, set `page = 1`, replace `matches`, toggle the
  no-results message, clear the list and render
  `matches.slice(0, BOOKS_PER_PAGE)`, and set
  `button.disabled = (matches.length - (page * BOOKS_PER_PAGE)) < 1`;
* show-more click: append
  `matches.slice(page * BOOKS_PER_PAGE, (page + 1) * BOOKS_PER_PAGE)`
  and increment `page`;
* list click: extract the preview id; if truthy, find the book by id in the
  full `books` array and, if found, open and populate the detail overlay. -/
def step (env : Env) (s : AppState) : Event → AppState
  | .submit q =>
    let result := filterBooks env.books q
    { page := 1,
      matchList := result,
      rendered := jsSlice result 0 env.pageSize,
      buttonDisabled := decide (((result.length : Int) - 1 * env.pageSize) < 1),
      messageShown := decide (result.length < 1),
      panel := s.panel }
  | .more =>
    { s with
      rendered := s.rendered ++ jsSlice s.matchList (s.page * env.pageSize) ((s.page + 1) * env.pageSize),
      page := s.page + 1 }
  | .select path =>
    match extractPreview path with
    | none => s
    | some pid =>
      if pid == [] then s
      else
        match env.books.find? (fun b => b.id == pid) with
        | none => s
        | some b => { s with panel := panelFor env b }

/-- Run a sequence of events from the freshly initialized page. -/
def run (env : Env) (evs : List Event) : AppState :=
  evs.foldl (step env) (initState env)

/-- Apply the show-more handler `k` times. -/
def mores (env : Env) : Nat → AppState → AppState
  | 0, s => s
  | k + 1, s => mores env k (step env s .more)

/-- `ceil(m / s)` on naturals (for `s > 0`). -/
def cdiv (m s : Nat) : Nat := (m + s - 1) / s

/-! ### Concrete fixtures used by counterexamples and witnesses -/

/-- A small concrete book: id, author, image, description and the single
genre all derived from `i`, with title `t`. -/
def mkBook (i t : JStr) : Book :=
  { id := i, title := t, author := i, image := i, description := i,
    genres := [i], published := 0 }

/-- A three-book dataset with page size 2. -/
def env3 : Env :=
  { books := [mkBook ['a'] ['A'], mkBook ['b'] ['B'], mkBook ['c'] ['C']],
    authors := [], pageSize := 2 }

/-- The unconstrained query: empty title, author `'any'`, genre `'any'`. -/
def q0 : Query := { title := [], author := anyS, genre := anyS }

/-- A query whose title is a single space (whitespace-only, non-empty). -/
def qWs : Query := { title := [' '], author := anyS, genre := anyS }

/-- A one-book dataset whose title contains no whitespace. -/
def bD : Book := mkBook ['d'] ['d']

/-! ### Helper lemmas -/

lemma length_jsSlice (l : List α) (a b : Nat) :
    (jsSlice l a b).length = min (b - a) (l.length - a) := by
  simp [jsSlice]

lemma jsSlice_zero (l : List α) (b : Nat) : jsSlice l 0 b = l.take b := by
  simp [jsSlice]

lemma next_mul_sub (p ps : Nat) : (p + 1) * ps - p * ps = ps := by
  rw [Nat.succ_mul]; omega

/-- Appending the next slice to the first `p` pages gives the first `p + 1`
pages. -/
lemma take_append_jsSlice (l : List α) (p ps : Nat) :
    l.take (p * ps) ++ jsSlice l (p * ps) ((p + 1) * ps) = l.take ((p + 1) * ps) := by
  rw [jsSlice, next_mul_sub, Nat.succ_mul, List.take_add]

lemma jsTrim_eq_nil (s : JStr) (h : ∀ c ∈ s, c.isWhitespace = true) :
    jsTrim s = [] := by
  unfold jsTrim
  rw [List.dropWhile_eq_nil_iff.mpr h]
  simp

lemma extractPreview_ne_nil (path : List (Option JStr)) (i : JStr)
    (h : extractPreview path = some i) : i ≠ [] := by
  induction path with
  | nil => simp [extractPreview] at h
  | cons hd tl ih =>
    match hd with
    | none => exact ih (by simpa [extractPreview] using h)
    | some pid =>
      rw [extractPreview] at h
      by_cases hp : pid = []
      · exact ih (by simpa [hp] using h)
      · rw [if_neg (by simpa using hp)] at h
        cases h
        exact hp

lemma find?_id_of_nodup (books : List Book) (i : JStr) (b : Book)
    (hnd : (books.map Book.id).Nodup) (hb : b ∈ books) (hid : b.id = i) :
    books.find? (fun x => x.id == i) = some b := by
  induction books with
  | nil => cases hb
  | cons c rest ih =>
    rw [List.find?_cons]
    simp only [List.map_cons, List.nodup_cons] at hnd
    rcases List.mem_cons.mp hb with hbc | hbr
    · subst hbc
      simp [hid]
    · have hcne : c.id ≠ i := by
        intro hci
        exact hnd.1 (hci ▸ hid ▸ List.mem_map_of_mem Book.id hbr)
      simp only [show (c.id == i) = false from beq_eq_false_iff_ne.mpr hcne]
      exact ih hnd.2 hbr

lemma find?_id_of_absent (books : List Book) (i : JStr)
    (h : ∀ b ∈ books, b.id ≠ i) :
    books.find? (fun x => x.id == i) = none :=
  List.find?_eq_none.mpr (fun b hb => by simpa using h b hb)

lemma cdiv_mul_ge (m ps : Nat) (hps : 0 < ps) : m ≤ cdiv m ps * ps := by
  unfold cdiv
  rw [Nat.mul_comm]
  have h := Nat.div_add_mod (m + ps - 1) ps
  have h2 : (m + ps - 1) % ps < ps := Nat.mod_lt _ hps
  omega

lemma cdiv_pos (m ps : Nat) (hm : 0 < m) (hps : 0 < ps) : 0 < cdiv m ps :=
  Nat.div_pos (by omega) hps

/-- A state whose rendered list is exactly the first `page` pages of the
match list keeps that shape under `k` show-more clicks: the match list and
the button's disabled state never change, the page advances by `k`, and the
rendered list is the first `page + k` pages. -/
lemma mores_spec (env : Env) (k : Nat) (s : AppState)
    (h : s.rendered = s.matchList.take (s.page * env.pageSize)) :
    (mores env k s).matchList = s.matchList ∧
    (mores env k s).page = s.page + k ∧
    (mores env k s).rendered = s.matchList.take ((s.page + k) * env.pageSize) ∧
    (mores env k s).buttonDisabled = s.buttonDisabled := by
  induction k generalizing s with
  | zero => exact ⟨rfl, by simp [mores], by simpa [mores] using h, rfl⟩
  | succ k ih =>
    have hstep : (step env s .more).rendered
        = s.matchList.take ((s.page + 1) * env.pageSize) := by
      simp only [step]
      rw [h, take_append_jsSlice]
    obtain ⟨h1, h2, h3, h4⟩ := ih (step env s .more) (by simpa [step] using hstep)
    refine ⟨by simpa [step] using h1, ?_, ?_, by simpa [step] using h4⟩
    · rw [mores, h2]
      simp [step]
      omega
    · rw [mores, h3]
      simp only [step]
      congr 1
      ring_nf

/-- The render-count invariant is preserved by every event handler. -/
lemma step_render_count (env : Env) (s : AppState) (e : Event)
    (h : s.rendered.length = min (s.page * env.pageSize) s.matchList.length) :
    (step env s e).rendered.length
      = min ((step env s e).page * env.pageSize) (step env s e).matchList.length := by
  match e with
  | .submit q =>
    simp only [step, length_jsSlice]
    omega
  | .more =>
    have hm : (s.page + 1) * env.pageSize = s.page * env.pageSize + env.pageSize :=
      Nat.succ_mul _ _
    simp only [step, List.length_append, length_jsSlice, hm]
    omega
  | .select path =>
    simp only [step]
    split
    · exact h
    · split
      · exact h
      · split
        · exact h
        · exact h

/-- The render-count invariant holds along any run. -/
lemma foldl_render_count (env : Env) (evs : List Event) (s : AppState)
    (h : s.rendered.length = min (s.page * env.pageSize) s.matchList.length) :
    (evs.foldl (step env) s).rendered.length
      = min ((evs.foldl (step env) s).page * env.pageSize)
          (evs.foldl (step env) s).matchList.length := by
  induction evs generalizing s with
  | nil => exact h
  | cons e rest ih => exact ih (step env s e) (step_render_count env s e h)

/-! ### C1 -/

/-- The title predicate exactly as the claim words it: "the title query
string is empty or the book's title contains the query string as a
case-insensitive substring" (no trimming). For comparison with the
source's `titleMatch`. -/
def claimTitlePredC1 (q : Query) (b : Book) : Bool :=
  q.title == [] || occursIn (lowerStr q.title) (lowerStr b.title)

/-- The inclusion predicate exactly as the claim words it: the conjunction
of its three predicates (title as above, author, genre). -/
def claimIncludedC1 (q : Query) (b : Book) : Bool :=
  claimTitlePredC1 q b
    && (q.author == anyS || b.author == q.author)
    && (q.genre == anyS || b.genres.contains q.genre)

/-- C1 counterexample: for the query whose title is a single space (with
author and genre `'any'`) and a book titled `"d"`, the code includes the
book in the filter result (the trimmed query is empty), but the claim's
predicate excludes it (the query string is non-empty and `"d"` does not
contain `" "`), so the stated "if and only if" fails. -/
theorem C1_counterexample :
    ¬ (bD ∈ filterBooks [bD] qWs ↔ claimIncludedC1 qWs bD = true) := by
  decide

/-- C1 (amended): a book of the dataset is in the filter result iff all
three predicates hold, where the title predicate reads: the title query is
empty after trimming whitespace, or the book's title contains the original
(untrimmed) query string as a case-insensitive substring; author and genre
predicates as claimed. -/
theorem C1_filter_membership (books : List Book) (q : Query) (b : Book)
    (hb : b ∈ books) :
    b ∈ filterBooks books q ↔
      ((jsTrim q.title = [] ∨ occursIn (lowerStr q.title) (lowerStr b.title) = true)
        ∧ (q.author = anyS ∨ b.author = q.author)
        ∧ (q.genre = anyS ∨ b.genres.contains q.genre = true)) := by
  simp [filterBooks, List.mem_filter, hb, bookMatches, titleMatch, authorMatch,
    genreMatch, Bool.or_eq_true, Bool.and_eq_true, and_assoc]

/-- Witness for C1's amended theorem at a concrete input: the whitespace
query against the one-book dataset. -/
theorem C1_filter_membership_witness :
    bD ∈ filterBooks [bD] qWs ↔
      ((jsTrim qWs.title = [] ∨ occursIn (lowerStr qWs.title) (lowerStr bD.title) = true)
        ∧ (qWs.author = anyS ∨ bD.author = qWs.author)
        ∧ (qWs.genre = anyS ∨ bD.genres.contains qWs.genre = true)) :=
  C1_filter_membership [bD] qWs bD (by decide)

/-! ### C4 -/

/-- C4: for every query, the filter result is a sublist of the dataset —
every result record occurs in the dataset and relative order is preserved
(no ranking or reordering). -/
theorem C4_result_sublist (books : List Book) (q : Query) :
    (filterBooks books q).Sublist books :=
  List.filter_sublist books

/-! ### C10 -/

/-- C10: a title query consisting only of whitespace characters makes the
title predicate accept every record; a query that is non-empty after
trimming is compared untrimmed (lowercased) against the lowercased title,
so leading/trailing whitespace in the query must occur literally in the
title. -/
theorem C10_title_trim (q : Query) (b : Book) :
    ((∀ c ∈ q.title, c.isWhitespace = true) → titleMatch q b = true)
    ∧ (jsTrim q.title ≠ [] →
        titleMatch q b = occursIn (lowerStr q.title) (lowerStr b.title)) := by
  constructor
  · intro hws
    simp [titleMatch, jsTrim_eq_nil q.title hws]
  · intro hne
    simp [titleMatch, hne]

/-- Witness for C10 at concrete inputs: the single-space query matches the
book titled `"d"`, and the query `"a "` (non-empty after trimming) reduces
to the untrimmed substring test. -/
theorem C10_title_trim_witness :
    titleMatch qWs bD = true
    ∧ titleMatch (Query.mk ['a', ' '] anyS anyS) bD
        = occursIn (lowerStr ['a', ' ']) (lowerStr bD.title) :=
  ⟨(C10_title_trim qWs bD).1 (by decide),
   (C10_title_trim (Query.mk ['a', ' '] anyS anyS) bD).2 (by decide)⟩

/-! ### C6 -/

/-- C6: every filter submission sets the pagination cursor to exactly 1,
replaces the match list wholesale with the newly filtered result, and the
rendered entries afterwards are exactly the first page of the new result
(all previously rendered entries are gone). -/
theorem C6_submit_resets (env : Env) (s : AppState) (q : Query) :
    (step env s (.submit q)).page = 1
    ∧ (step env s (.submit q)).matchList = filterBooks env.books q
    ∧ (step env s (.submit q)).rendered = (filterBooks env.books q).take env.pageSize := by
  refine ⟨rfl, rfl, ?_⟩
  simp [step, jsSlice]

/-! ### C7 -/

/-- C7: a show-more click with records remaining appends exactly the
records of the current match list at indices
`[page * pageSize, (page + 1) * pageSize)` after the already-rendered
entries, increments the page by exactly 1, leaves every previously
rendered entry in place, and leaves the match list unchanged. -/
theorem C7_more_appends (env : Env) (s : AppState)
    (h : s.page * env.pageSize < s.matchList.length) :
    (step env s .more).rendered
        = s.rendered ++ (s.matchList.drop (s.page * env.pageSize)).take env.pageSize
    ∧ (step env s .more).page = s.page + 1
    ∧ (step env s .more).rendered.take s.rendered.length = s.rendered
    ∧ (step env s .more).matchList = s.matchList := by
  have hs : jsSlice s.matchList (s.page * env.pageSize) ((s.page + 1) * env.pageSize)
      = (s.matchList.drop (s.page * env.pageSize)).take env.pageSize := by
    rw [jsSlice, next_mul_sub]
  refine ⟨by simp [step, hs], rfl, ?_, rfl⟩
  simp only [step]
  exact List.take_left s.rendered _

/-- Witness for C7 at a concrete input: the freshly initialized three-book
state with page size 2 still has a record remaining. -/
theorem C7_more_appends_witness :
    (initState env3).page * env3.pageSize < (initState env3).matchList.length
    ∧ ((step env3 (initState env3) .more).rendered
          = (initState env3).rendered
            ++ ((initState env3).matchList.drop ((initState env3).page * env3.pageSize)).take env3.pageSize
        ∧ (step env3 (initState env3) .more).page = (initState env3).page + 1
        ∧ (step env3 (initState env3) .more).rendered.take (initState env3).rendered.length
            = (initState env3).rendered
        ∧ (step env3 (initState env3) .more).matchList = (initState env3).matchList) :=
  ⟨by decide, C7_more_appends env3 (initState env3) (by decide)⟩

/-! ### C2 -/

/-- C2 counterexample: in the three-book environment with page size 2,
after a submission of the unconstrained query followed by one show-more
click, `remaining = 3 - 2*2 = -1 ≤ 0`, yet the show-more button is still
enabled — the click handler never updates the disabled state. -/
theorem C2_counterexample :
    ¬ (((run env3 [.submit q0, .more]).buttonDisabled = true) ↔
        (((run env3 [.submit q0, .more]).matchList.length : Int)
          - (run env3 [.submit q0, .more]).page * env3.pageSize ≤ 0)) := by
  decide

/-- C2 (amended): the equivalence "the show-more affordance is disabled iff
`|matches| - page * pageSize ≤ 0`" holds at startup and immediately after
every filter submission; show-more clicks (and list clicks) leave the
disabled state unchanged, so between submissions it reflects the value
computed at `page = 1` of the latest submission, not the current page. -/
theorem C2_disabled_sites (env : Env) :
    ((initState env).buttonDisabled = true ↔
        ((initState env).matchList.length : Int)
          - (initState env).page * env.pageSize ≤ 0)
    ∧ (∀ (s : AppState) (q : Query),
        (step env s (.submit q)).buttonDisabled = true ↔
          ((step env s (.submit q)).matchList.length : Int)
            - (step env s (.submit q)).page * env.pageSize ≤ 0)
    ∧ (∀ (s : AppState) (path : List (Option JStr)),
        (step env s .more).buttonDisabled = s.buttonDisabled
        ∧ (step env s (.select path)).buttonDisabled = s.buttonDisabled) := by
  refine ⟨?_, fun s q => ?_, fun s path => ⟨rfl, ?_⟩⟩
  · simp only [initState, decide_eq_true_eq]
    push_cast
    omega
  · simp only [step, decide_eq_true_eq]
    push_cast
    omega
  · simp only [step]
    split
    · rfl
    · split
      · rfl
      · split
        · rfl
        · rfl

/-! ### C3 -/

/-- C3: at every state reachable by any sequence of events from startup,
the number of rendered records equals
`min(page * pageSize, |match list|)`. -/
theorem C3_render_count (env : Env) (evs : List Event) :
    (run env evs).rendered.length
      = min ((run env evs).page * env.pageSize) (run env evs).matchList.length := by
  apply foldl_render_count
  simp only [initState, length_jsSlice]
  omega

/-! ### C9 -/

/-- C9 counterexample: in the three-book environment with page size 2,
after submitting the unconstrained query and one show-more click, nothing
is left to reveal (`page * pageSize = 4 ≥ 3`), yet the affordance is still
enabled and a further show-more click is not a no-op: it changes the state
(the page counter increments). -/
theorem C9_counterexample :
    (run env3 [.submit q0, .more]).matchList.length
        ≤ (run env3 [.submit q0, .more]).page * env3.pageSize
    ∧ (run env3 [.submit q0, .more]).buttonDisabled = false
    ∧ step env3 (run env3 [.submit q0, .more]) .more ≠ run env3 [.submit q0, .more] := by
  decide

/-- C9 (amended): a show-more click with nothing left to reveal
(`page * pageSize ≥ |matches|`) appends no records — the rendered entries,
match list, disabled state, message and detail panel are unchanged — but it
still increments the pagination cursor by 1; the affordance's disabled
state is simply whatever the last submission or startup set it to. -/
theorem C9_more_exhausted (env : Env) (s : AppState)
    (h : s.matchList.length ≤ s.page * env.pageSize) :
    (step env s .more).rendered = s.rendered
    ∧ (step env s .more).page = s.page + 1
    ∧ (step env s .more).matchList = s.matchList
    ∧ (step env s .more).buttonDisabled = s.buttonDisabled
    ∧ (step env s .more).panel = s.panel := by
  refine ⟨?_, rfl, rfl, rfl, rfl⟩
  simp only [step, jsSlice]
  rw [List.drop_eq_nil_of_le h]
  simp

/-- Witness for C9's amended theorem at a concrete input: the state after
one submission and one show-more click in the three-book environment. -/
theorem C9_more_exhausted_witness :
    (run env3 [.submit q0, .more]).matchList.length
        ≤ (run env3 [.submit q0, .more]).page * env3.pageSize
    ∧ ((step env3 (run env3 [.submit q0, .more]) .more).rendered
          = (run env3 [.submit q0, .more]).rendered
        ∧ (step env3 (run env3 [.submit q0, .more]) .more).page
            = (run env3 [.submit q0, .more]).page + 1
        ∧ (step env3 (run env3 [.submit q0, .more]) .more).matchList
            = (run env3 [.submit q0, .more]).matchList
        ∧ (step env3 (run env3 [.submit q0, .more]) .more).buttonDisabled
            = (run env3 [.submit q0, .more]).buttonDisabled
        ∧ (step env3 (run env3 [.submit q0, .more]) .more).panel
            = (run env3 [.submit q0, .more]).panel) :=
  ⟨by decide, C9_more_exhausted env3 (run env3 [.submit q0, .more]) (by decide)⟩

/-! ### C5 -/

/-- C5 counterexample: in the three-book environment with page size 2,
submit the unconstrained query (result size 3) and click show-more
`ceil(3/2) - 1 = 1` time. All three records are rendered, but the
affordance is not disabled — the claimed conjunction fails. -/
theorem C5_counterexample :
    ¬ ((mores env3 (cdiv (filterBooks env3.books q0).length env3.pageSize - 1)
          (step env3 (initState env3) (.submit q0))).rendered = filterBooks env3.books q0
        ∧ (mores env3 (cdiv (filterBooks env3.books q0).length env3.pageSize - 1)
            (step env3 (initState env3) (.submit q0))).buttonDisabled = true) := by
  decide

/-- C5 (amended): starting from a fresh filter submission with a non-empty
result, invoking show-more exactly `ceil(|results|/pageSize) - 1` times
renders every record of the result set; the affordance at that point is
disabled iff `|results| ≤ pageSize` (i.e. it keeps the state computed at
submission time, since show-more clicks never update it). -/
theorem C5_reveal_all (env : Env) (s : AppState) (q : Query)
    (hps : 0 < env.pageSize) (hne : filterBooks env.books q ≠ []) :
    (mores env (cdiv (filterBooks env.books q).length env.pageSize - 1)
        (step env s (.submit q))).rendered = filterBooks env.books q
    ∧ ((mores env (cdiv (filterBooks env.books q).length env.pageSize - 1)
          (step env s (.submit q))).buttonDisabled = true
        ↔ ((filterBooks env.books q).length : Int) - env.pageSize < 1) := by
  have hs1 : (step env s (.submit q)).rendered
      = (step env s (.submit q)).matchList.take
          ((step env s (.submit q)).page * env.pageSize) := by
    simp [step, jsSlice]
  obtain ⟨h1, h2, h3, h4⟩ :=
    mores_spec env (cdiv (filterBooks env.books q).length env.pageSize - 1)
      (step env s (.submit q)) hs1
  have hm : 0 < (filterBooks env.books q).length := List.length_pos.mpr hne
  have hc : 0 < cdiv (filterBooks env.books q).length env.pageSize :=
    cdiv_pos _ _ hm hps
  constructor
  · rw [h3]
    show (filterBooks env.books q).take
        ((1 + (cdiv (filterBooks env.books q).length env.pageSize - 1)) * env.pageSize)
      = filterBooks env.books q
    have he : 1 + (cdiv (filterBooks env.books q).length env.pageSize - 1)
        = cdiv (filterBooks env.books q).length env.pageSize := by omega
    rw [he]
    exact List.take_of_length_le (cdiv_mul_ge _ _ hps)
  · rw [h4]
    show decide (((filterBooks env.books q).length : Int) - 1 * env.pageSize < 1) = true
        ↔ ((filterBooks env.books q).length : Int) - env.pageSize < 1
    simp only [decide_eq_true_eq]
    omega

/-- Witness for C5's amended theorem at a concrete input: the three-book
environment with the unconstrained query (result size 3, page size 2,
one show-more click). -/
theorem C5_reveal_all_witness :
    0 < env3.pageSize
    ∧ filterBooks env3.books q0 ≠ []
    ∧ ((mores env3 (cdiv (filterBooks env3.books q0).length env3.pageSize - 1)
          (step env3 (initState env3) (.submit q0))).rendered = filterBooks env3.books q0
        ∧ ((mores env3 (cdiv (filterBooks env3.books q0).length env3.pageSize - 1)
              (step env3 (initState env3) (.submit q0))).buttonDisabled = true
            ↔ ((filterBooks env3.books q0).length : Int) - env3.pageSize < 1)) :=
  ⟨by decide, by decide,
   C5_reveal_all env3 (initState env3) q0 (by decide) (by decide)⟩

/-! ### C8 -/

/-- C8: for every preview identifier actually captured from a click's
propagation path, the lookup runs against the full dataset: when the
dataset's identifiers are distinct and some record carries the captured
identifier, the handler opens the detail panel populated with exactly that
record's fields and changes nothing else; when no record carries it, the
handler leaves the state completely unchanged (a silent no-op). -/
theorem C8_selection (env : Env) (s : AppState) (path : List (Option JStr))
    (i : JStr) (hext : extractPreview path = some i) :
    ((env.books.map Book.id).Nodup →
      ∀ b, b ∈ env.books → b.id = i →
        step env s (.select path) = { s with panel := panelFor env b })
    ∧ ((∀ b, b ∈ env.books → b.id ≠ i) → step env s (.select path) = s) := by
  have hne : i ≠ [] := extractPreview_ne_nil path i hext
  constructor
  · intro hnd b hb hid
    simp only [step, hext]
    rw [if_neg (by simpa using hne),
      find?_id_of_nodup env.books i b hnd hb hid]
  · intro habs
    simp only [step, hext]
    rw [if_neg (by simpa using hne), find?_id_of_absent env.books i habs]

/-- Witness for C8 at concrete inputs: a click path carrying `"a"` opens
the panel for the book with id `"a"` in the three-book environment. -/
theorem C8_selection_witness :
    step env3 (initState env3) (.select [none, some ['a']])
      = { initState env3 with panel := panelFor env3 (mkBook ['a'] ['A']) } :=
  (C8_selection env3 (initState env3) [none, some ['a']] ['a'] (by decide)).1
    (by decide) (mkBook ['a'] ['A']) (by decide) (by decide)
